import Mathlib

/-!
Shallow embedding of the sensor-simulation and anomaly-detection core
(`src/sensors/base_sensor.py`, `src/anomaly/statistics.py`,
`src/anomaly/rules.py`) and proofs of the specified properties.

Python floats are embedded as exact rationals extended with a NaN element
(`FV := Option ℚ`, `none` standing for the not-a-number malfunction
marker).  The only NaN source in the modelled code paths is a sensor
malfunction reading; infinities never arise there.  Python comparison
semantics (every comparison with NaN is false) is reproduced by the
boolean comparison helpers below.

Square roots (needed for the sample standard deviation) are irrational,
so z-scores are carried in the exact computable representation
`ZR := Option (ℚ × ℚ)`: `none` is NaN and `some (a, b)` denotes the real
number `a * Real.sqrt b` (with `0 ≤ a`, `0 ≤ b` for every value the code
constructs).  `zToReal` interprets the representation and bridging lemmas
relate the code's comparisons to the real-valued z-score.
-/

/-- A Python float value restricted to the values the modelled code can
produce: an exact rational, or NaN (`none`). -/
abbrev FV := Option ℚ

namespace FV

/-- The not-a-number marker (`float('nan')`). -/
def nanF : FV := none

/-- Python `x < c` for a float `x` and a rational literal `c`:
false whenever `x` is NaN. -/
def ltB : FV → ℚ → Bool
  | none, _ => false
  | some q, c => decide (q < c)

/-- Python `x > c` for a float `x` and a rational literal `c`:
false whenever `x` is NaN. -/
def gtB : FV → ℚ → Bool
  | none, _ => false
  | some q, c => decide (q > c)

/-- Python `x < y` on floats: false whenever either side is NaN. -/
def ltFB : FV → FV → Bool
  | some a, some b => decide (a < b)
  | _, _ => false

/-- Does the value denote NaN? -/
def isNan : FV → Bool
  | none => true
  | some _ => false

end FV

/-- `statistics.mean` on a list of floats: NaN as soon as one element is
NaN, otherwise the exact arithmetic mean.  (`mean []` raises in Python;
every call site below guards against the empty list, and the model maps
that unreachable case to NaN.) -/
def fmean (l : List FV) : FV :=
  if l.any FV.isNan then none
  else if l.length = 0 then none
  else some ((l.foldl (fun acc x => acc + x.getD 0) 0) / l.length)

/-- The sample variance underlying `statistics.stdev` (which is its
square root): NaN as soon as one element is NaN; defined only for lists
of length ≥ 2 (shorter lists raise in Python, every call site below
guards for that, and the model maps those cases to NaN). -/
def fvar (l : List FV) : FV :=
  if l.any FV.isNan then none
  else if l.length < 2 then none
  else
    match fmean l with
    | none => none
    | some m => some ((l.foldl (fun acc x => acc + (x.getD 0 - m) ^ 2) 0) / (l.length - 1 : ℕ))

/-- Python `min` over a non-empty float list: left fold keeping the
accumulator unless the candidate compares strictly smaller (so a NaN
that is not in the first position is skipped, while a leading NaN is
kept).  `min []` raises; the model maps it to NaN (call sites guard). -/
def pyMin : List FV → FV
  | [] => none
  | h :: t => t.foldl (fun acc x => if FV.ltFB x acc then x else acc) h

/-- Python `max` over a non-empty float list, with the same NaN
order-dependence as `pyMin`. -/
def pyMax : List FV → FV
  | [] => none
  | h :: t => t.foldl (fun acc x => if FV.ltFB acc x then x else acc) h

/-- Exact representation of the float values `get_z_score` can return:
`none` is NaN and `some (a, b)` denotes `a * Real.sqrt b`. -/
abbrev ZR := Option (ℚ × ℚ)

/-- The representation of the exact float `0.0` returned on the
degenerate branches of `get_z_score`. -/
def zZero : ZR := some (0, 1)

/-- Real value denoted by a `ZR` (NaN is mapped to an arbitrary default;
the lemmas using this interpretation always exclude the NaN case). -/
noncomputable def zToReal : ZR → ℝ
  | none => 0
  | some (a, b) => (a : ℝ) * Real.sqrt (b : ℝ)

/-- Python `z >= c` where `z` is a float in `ZR` representation and `c`
a rational literal: false on NaN; for `some (a, b)` (with the invariant
`0 ≤ a`, `0 ≤ b`) it decides `a * √b ≥ c` by squaring. -/
def zGeB : ZR → ℚ → Bool
  | none, _ => false
  | some (a, b), c => if c ≤ 0 then true else decide (c ^ 2 ≤ a ^ 2 * b)

/-- `SensorWindow` (`src/anomaly/statistics.py`): rolling window of the
last `window_size` values and timestamps (`collections.deque` with
`maxlen=window_size`). -/
structure SensorWindow where
  window_size : ℕ
  values : List FV
  timestamps : List ℚ
  deriving Repr, DecidableEq

/-- Append to a `deque(maxlen := n)`: keep only the last `n` elements. -/
def pushCap (n : ℕ) (l : List α) (a : α) : List α :=
  (l ++ [a]).drop (l.length + 1 - n)

/-- The last `n` elements of a list, in order. -/
def lastN (n : ℕ) (l : List α) : List α :=
  l.drop (l.length - n)

namespace SensorWindow

/-- `SensorWindow.__init__`. -/
def new (window_size : ℕ) : SensorWindow :=
  { window_size := window_size, values := [], timestamps := [] }

/-- `SensorWindow.is_full`: `len(self.values) >= self.window_size`. -/
def isFull (w : SensorWindow) : Bool :=
  decide (w.window_size ≤ w.values.length)

/-- `SensorWindow.get_z_score`: `0.0` for fewer than two accumulated
values or zero standard deviation, otherwise `abs(value - mean) / stdev`
(which is NaN when the window contains a NaN or `value` is NaN). -/
def get_z_score (w : SensorWindow) (value : FV) : ZR :=
  if w.values.length < 2 then zZero
  else
    match fvar w.values with
    | none => none
    | some var =>
      if var = 0 then zZero
      else
        match fmean w.values, value with
        | some m, some q => some (|q - m| / var, var)
        | _, _ => none

end SensorWindow

/-- Reading metadata (`SensorReading.metadata` dict): either empty, the
malfunction flag, or the normal-read provenance entries. -/
inductive RMeta where
  | emptyMeta : RMeta
  | malfunction : RMeta
  | gen (base_value : ℚ) (drift_applied : ℚ) (noise_level : ℚ) : RMeta
  deriving Repr, DecidableEq

/-- `SensorReading` (`src/sensors/base_sensor.py`): timestamps are
modelled as rational seconds since the epoch. -/
structure SensorReading where
  value : FV
  timestamp : ℚ
  sensor_id : Option String
  sensor_type : String
  quality : ℚ
  metadata : RMeta
  deriving Repr, DecidableEq

/-- Modelled from the spec: `AlertSeverity` lives in `src/anomaly/detector.py`,
which is absent from the sources (only its importers are present); §3 of the
spec defines it as an ordered severity level `low < medium < high < critical`. -/
inductive AlertSeverity where
  | low | medium | high | critical
  deriving Repr, DecidableEq

/-- Window statistics as returned by `SensorWindow.get_statistics`.
The standard deviation is carried in `ZR` representation because it is
the square root of the rational sample variance. -/
structure WindowStats where
  count : ℕ
  mean : FV
  stdev : ZR
  minV : FV
  maxV : FV
  deriving Repr, DecidableEq

/-- Alert metadata: the rule detector tags `rule_type: threshold`; the
z-score detector stores the computed z-score, the window size and the
window statistics. -/
inductive AlertMeta where
  | thresholdTag : AlertMeta
  | zscoreTag (z_score : ZR) (window_size : ℕ) (window_stats : WindowStats) : AlertMeta
  deriving Repr, DecidableEq

/-- Modelled from the spec: `Alert` lives in `src/anomaly/detector.py`, which
is absent from the sources; §3 of the spec defines it as an immutable record of
timestamp, sensor_id, sensor_type, rule/strategy name, severity, triggering
value, crossed threshold, human-readable message and a metadata mapping.  The
numeric string interpolation inside messages is elided. -/
structure Alert where
  timestamp : ℚ
  sensor_id : String
  sensor_type : String
  rule_name : String
  severity : AlertSeverity
  value : FV
  threshold : ℚ
  message : String
  metadata : AlertMeta
  deriving Repr, DecidableEq

namespace SensorWindow

/-- `SensorWindow.add_reading`: append value and timestamp to the
bounded deques. -/
def addReading (w : SensorWindow) (r : SensorReading) : SensorWindow :=
  { w with
    values := pushCap w.window_size w.values r.value
    timestamps := pushCap w.window_size w.timestamps r.timestamp }

/-- The standard deviation entry of `get_statistics`:
`statistics.stdev(values) if len(values) > 1 else 0.0`, in `ZR`
representation (`some (1, var)` denotes `√var`). -/
def stdevRep (l : List FV) : ZR :=
  if l.length ≤ 1 then zZero
  else
    match fvar l with
    | none => none
    | some var => some (1, var)

/-- `SensorWindow.get_statistics`. -/
def get_statistics (w : SensorWindow) : WindowStats :=
  if w.values.length = 0 then
    { count := 0, mean := some 0, stdev := zZero, minV := some 0, maxV := some 0 }
  else
    { count := w.values.length
      mean := fmean w.values
      stdev := stdevRep w.values
      minV := pyMin w.values
      maxV := pyMax w.values }

end SensorWindow

/-- `ZScoreDetector` (`src/anomaly/statistics.py`): per-sensor-key
rolling windows; the dict is modelled as an insertion-ordered
association list. -/
structure ZScoreDetector where
  window_size : ℕ
  z_threshold : ℚ
  sensor_windows : List (String × SensorWindow)
  deriving Repr, DecidableEq

/-- Association-list lookup (Python dict read). -/
def lookupW : List (String × SensorWindow) → String → Option SensorWindow
  | [], _ => none
  | (k0, w0) :: rest, k => if k0 = k then some w0 else lookupW rest k

/-- Association-list write (Python dict assignment: replace an existing
key in place, otherwise append in insertion order). -/
def updateW : List (String × SensorWindow) → String → SensorWindow → List (String × SensorWindow)
  | [], k, w => [(k, w)]
  | (k0, w0) :: rest, k, w => if k0 = k then (k, w) :: rest else (k0, w0) :: updateW rest k w

namespace ZScoreDetector

/-- `ZScoreDetector.__init__` with the given parameters. -/
def new (window_size : ℕ) (z_threshold : ℚ) : ZScoreDetector :=
  { window_size := window_size, z_threshold := z_threshold, sensor_windows := [] }

/-- `ZScoreDetector._get_sensor_key`:
`f"{reading.sensor_type}_{reading.sensor_id}"` (Python renders a missing
id as the string `None`). -/
def sensorKey (r : SensorReading) : String :=
  r.sensor_type ++ "_" ++ (match r.sensor_id with | some s => s | none => "None")

/-- `ZScoreDetector._get_severity_from_z_score`. -/
def sevFromZ (z : ZR) : AlertSeverity :=
  if zGeB z 5 then .critical
  else if zGeB z 4 then .high
  else if zGeB z 3 then .medium
  else .low

/-- The alert built inside `ZScoreDetector.process_reading` (numeric
string interpolation in the message elided). -/
def mkZAlert (d : ZScoreDetector) (r : SensorReading) (z : ZR) (stats : WindowStats) : Alert :=
  { timestamp := r.timestamp
    sensor_id := (match r.sensor_id with | some s => s | none => "unknown")
    sensor_type := r.sensor_type
    rule_name := "z_score"
    severity := sevFromZ z
    value := r.value
    threshold := d.z_threshold
    message := "Statistical anomaly detected"
    metadata := .zscoreTag z d.window_size stats }

/-- `ZScoreDetector.process_reading`: look up (or create) the sensor
key's window, compute the z-score against the window *before* the new
value is admitted, emit one alert when `z >= z_threshold`, and only then
append the reading to the window. -/
def process_reading (d : ZScoreDetector) (r : SensorReading) : List Alert × ZScoreDetector :=
  let key := sensorKey r
  let w := (lookupW d.sensor_windows key).getD (SensorWindow.new d.window_size)
  let alerts :=
    if w.isFull then
      let z := w.get_z_score r.value
      if zGeB z d.z_threshold then [mkZAlert d r z w.get_statistics] else []
    else []
  (alerts, { d with sensor_windows := updateW d.sensor_windows key (w.addReading r) })

end ZScoreDetector

/-- `ThresholdRule` (`src/anomaly/rules.py`): the condition is the
rule's predicate over the reading's float value. -/
structure ThresholdRule where
  name : String
  sensor_type : String
  condition : FV → Bool
  threshold : ℚ
  severity : AlertSeverity
  message_template : String

namespace ThresholdRule

/-- `ThresholdRule.check`: sensor type must match, then the predicate is
evaluated on the value. -/
def check (rule : ThresholdRule) (r : SensorReading) : Bool :=
  if r.sensor_type ≠ rule.sensor_type then false
  else rule.condition r.value

/-- `ThresholdRule.create_alert` (string interpolation into the message
template elided: the template itself is stored). -/
def create_alert (rule : ThresholdRule) (r : SensorReading) : Alert :=
  { timestamp := r.timestamp
    sensor_id := (match r.sensor_id with | some s => s | none => "unknown_sensor")
    sensor_type := r.sensor_type
    rule_name := rule.name
    severity := rule.severity
    value := r.value
    threshold := rule.threshold
    message := rule.message_template
    metadata := .thresholdTag }

end ThresholdRule

/-- `RuleBasedDetector` state: the ordered rule catalogue. -/
structure RuleBasedDetector where
  rules : List ThresholdRule

namespace RuleBasedDetector

/-- `RuleBasedDetector._setup_default_rules`: the fixed default
catalogue, in registration order. -/
def defaultRules : List ThresholdRule :=
  [ { name := "temp_very_low", sensor_type := "temperature"
      condition := fun x => FV.ltB x (-5), threshold := -5
      severity := .high
      message_template := "Temperature very low: \x7bvalue:.1f\x7d°C < \x7bthreshold:.1f\x7d°C on \x7bsensor_id\x7d - possible frost conditions" }
  , { name := "temp_very_high", sensor_type := "temperature"
      condition := fun x => FV.gtB x 35, threshold := 35
      severity := .high
      message_template := "Temperature very high: \x7bvalue:.1f\x7d°C > \x7bthreshold:.1f\x7d°C on \x7bsensor_id\x7d - extreme heat warning" }
  , { name := "temp_extreme_high", sensor_type := "temperature"
      condition := fun x => FV.gtB x 30, threshold := 30
      severity := .medium
      message_template := "High temperature: \x7bvalue:.1f\x7d°C > \x7bthreshold:.1f\x7d°C on \x7bsensor_id\x7d - hot weather conditions" }
  , { name := "pressure_very_low", sensor_type := "pressure"
      condition := fun x => FV.ltB x 950, threshold := 950
      severity := .medium
      message_template := "Atmospheric pressure very low: \x7bvalue:.1f\x7d hPa < \x7bthreshold:.1f\x7d hPa on \x7bsensor_id\x7d" }
  , { name := "pressure_very_high", sensor_type := "pressure"
      condition := fun x => FV.gtB x 1050, threshold := 1050
      severity := .medium
      message_template := "Atmospheric pressure very high: \x7bvalue:.1f\x7d hPa > \x7bthreshold:.1f\x7d hPa on \x7bsensor_id\x7d" }
  , { name := "humidity_impossible_low", sensor_type := "humidity"
      condition := fun x => FV.ltB x 0, threshold := 0
      severity := .critical
      message_template := "Humidity below 0%: \x7bvalue:.1f\x7d% on \x7bsensor_id\x7d - sensor malfunction" }
  , { name := "humidity_impossible_high", sensor_type := "humidity"
      condition := fun x => FV.gtB x 100, threshold := 100
      severity := .critical
      message_template := "Humidity above 100%: \x7bvalue:.1f\x7d% on \x7bsensor_id\x7d - sensor malfunction" } ]

/-- `RuleBasedDetector.__init__` installs the default catalogue. -/
def new : RuleBasedDetector := { rules := defaultRules }

/-- `RuleBasedDetector.process_reading`: every matching rule fires, in
catalogue order, one alert each. -/
def process_reading (d : RuleBasedDetector) (r : SensorReading) : List Alert :=
  (d.rules.filter (fun rule => rule.check r)).map (fun rule => rule.create_alert r)

end RuleBasedDetector

/-- `BaseSensor` (`src/sensors/base_sensor.py`).  Timestamps and the
wall clock are rational seconds since the epoch.  The abstract
`_generate_base_value` of the concrete variants is the function field
`base`.  Ambient randomness (`np.random`) is made explicit: `read` takes
the uniform malfunction roll and the standard-normal noise draw as
arguments. -/
structure BaseSensor where
  sensor_id : String
  sensor_type : String
  units : String
  sample_rate : ℚ
  range_min : ℚ
  range_max : ℚ
  accuracy : ℚ
  precision : ℚ
  calibration_date : ℚ
  is_active : Bool
  last_reading : Option SensorReading
  reading_count : ℕ
  drift_factor : ℚ
  noise_level : ℚ
  malfunction_probability : ℚ
  base : ℚ → ℚ

namespace BaseSensor

/-- `BaseSensor._apply_noise`: no-op for `noise_level <= 0`, otherwise
adds `np.random.normal(0, precision * noise_level * 10)`, i.e. the
scaled standard-normal draw `g`. -/
def applyNoise (s : BaseSensor) (value : ℚ) (g : ℚ) : ℚ :=
  if s.noise_level ≤ 0 then value
  else value + s.precision * s.noise_level * 10 * g

/-- The linear drift offset of `BaseSensor._apply_drift`, a function of
the wall clock `now` (the code uses `datetime.now()`, not the reading
timestamp): `drift_factor * drift_days * (range_max - range_min) / 100`
with `drift_days = (now - calibration_date) / (24 * 3600)`. -/
def driftAmount (s : BaseSensor) (now : ℚ) : ℚ :=
  s.drift_factor * ((now - s.calibration_date) / (24 * 3600)) * (s.range_max - s.range_min) / 100

/-- `BaseSensor._apply_drift`: no-op for zero drift factor, otherwise
adds the wall-clock-based linear drift offset. -/
def applyDrift (s : BaseSensor) (value : ℚ) (now : ℚ) : ℚ :=
  if s.drift_factor = 0 then value
  else value + s.driftAmount now

/-- `BaseSensor._check_malfunction`: `np.random.random() < probability`
with the uniform draw `roll` made explicit. -/
def checkMalfunction (s : BaseSensor) (roll : ℚ) : Bool :=
  decide (roll < s.malfunction_probability)

/-- `BaseSensor._clamp_to_range`. -/
def clampToRange (s : BaseSensor) (value : ℚ) : ℚ :=
  max s.range_min (min s.range_max value)

/-- The error message of the activation check in `BaseSensor.read`. -/
def activationError (s : BaseSensor) : String :=
  "Sensor " ++ s.sensor_id ++ " is not active"

/-- `BaseSensor.read`: raises unless active; rolls the malfunction
check; otherwise pipes the base value through drift, noise and clamping
and derives the quality; updates `last_reading` and `reading_count` on
both branches.  `tArg` is the optional timestamp argument, `now` the
wall clock at the call, `roll` the uniform malfunction draw and `g` the
standard-normal noise draw.  Returns the result (or the raised error)
together with the post-state. -/
def read (s : BaseSensor) (tArg : Option ℚ) (now roll g : ℚ) :
    Except String SensorReading × BaseSensor :=
  if s.is_active = false then (Except.error s.activationError, s)
  else
    let t := tArg.getD now
    let reading : SensorReading :=
      if s.checkMalfunction roll then
        { value := FV.nanF, timestamp := t, sensor_id := some s.sensor_id
          sensor_type := s.sensor_type, quality := 0, metadata := .malfunction }
      else
        let base_value := s.base t
        let value_with_drift := s.applyDrift base_value now
        let value_with_noise := s.applyNoise value_with_drift g
        let final_value := s.clampToRange value_with_noise
        let quality := max 0 (1 - s.noise_level - |s.drift_factor| / 100)
        { value := some final_value, timestamp := t, sensor_id := some s.sensor_id
          sensor_type := s.sensor_type, quality := quality
          metadata := .gen base_value (value_with_drift - base_value) s.noise_level }
    (Except.ok reading,
     { s with last_reading := some reading, reading_count := s.reading_count + 1 })

/-- `BaseSensor.calibrate`: recompute the drift factor from the
calibration error and reset the calibration timestamp to the wall clock
`now`. -/
def calibrate (s : BaseSensor) (reference_value actual_value now : ℚ) : BaseSensor :=
  { s with
    drift_factor := -(actual_value - reference_value) / (s.range_max - s.range_min) * 100
    calibration_date := now }

/-- `BaseSensor.activate`. -/
def activate (s : BaseSensor) : BaseSensor := { s with is_active := true }

/-- Value of a read result: the reading's value, or NaN for a raised
error (the error case never carries a value; call sites only use this
accessor under an `ok` hypothesis). -/
def resValue : Except String SensorReading → FV
  | Except.ok rd => rd.value
  | Except.error _ => FV.nanF

/-- Metadata of a read result (empty for a raised error; call sites
only use this accessor under an `ok` hypothesis). -/
def resMeta : Except String SensorReading → RMeta
  | Except.ok rd => rd.metadata
  | Except.error _ => RMeta.emptyMeta

/-- Is the read result a raised error? -/
def isErr : Except String SensorReading → Bool
  | Except.ok _ => false
  | Except.error _ => true

/-- The `drift_applied` metadata entry of a normal reading. -/
def mdDrift : RMeta → Option ℚ
  | RMeta.gen _ d _ => some d
  | _ => none

end BaseSensor

/-! ## Concrete fixtures used by witnesses and counterexamples -/

/-- Sensor id used by the concrete detector fixtures. -/
def idS1 : String := "s1"

/-- Sensor type used by the concrete detector fixtures. -/
def typeTemp : String := "temperature"

/-- The sensor key `temperature_s1`. -/
def keyTempS1 : String := "temperature_s1"

/-- A full two-slot window holding the values `1` and `2`. -/
def wC3 : SensorWindow :=
  { window_size := 2, values := [some 1, some 2], timestamps := [0, 1] }

/-- A z-score detector (window size 2, threshold 3) already tracking
`temperature_s1` with the full window `wC3`. -/
def dC3 : ZScoreDetector :=
  { window_size := 2, z_threshold := 3, sensor_windows := [(keyTempS1, wC3)] }

/-- A malfunction reading (NaN value, quality 0) from `temperature_s1`. -/
def rC3 : SensorReading :=
  { value := FV.nanF, timestamp := 2, sensor_id := some idS1
    sensor_type := typeTemp, quality := 0, metadata := .malfunction }

/-- The window `wC3` after the malfunction reading `rC3` has been
appended: the NaN evicted the oldest value and sits in the window. -/
def wC3x : SensorWindow :=
  { window_size := 2, values := [some 2, FV.nanF], timestamps := [1, 2] }

/-- A full three-slot window holding `0, 1, 2` (mean 1, sample variance 1). -/
def wC4 : SensorWindow :=
  { window_size := 3, values := [some 0, some 1, some 2], timestamps := [0, 1, 2] }

/-- A z-score detector (window size 3, threshold 3) already tracking
`temperature_s1` with the full window `wC4`. -/
def dC4 : ZScoreDetector :=
  { window_size := 3, z_threshold := 3, sensor_windows := [(keyTempS1, wC4)] }

/-- A reading of value `10` from `temperature_s1` (z-score 9 against `wC4`). -/
def rC4 : SensorReading :=
  { value := some 10, timestamp := 3, sensor_id := some idS1
    sensor_type := typeTemp, quality := 1, metadata := .emptyMeta }

/-- A reading of value `100` from `temperature_s1`. -/
def rC5 : SensorReading :=
  { value := some 100, timestamp := 0, sensor_id := some idS1
    sensor_type := typeTemp, quality := 1, metadata := .emptyMeta }

/-- A temperature reading of `40.0`. -/
def rd40 : SensorReading :=
  { value := some 40, timestamp := 0, sensor_id := some idS1
    sensor_type := typeTemp, quality := 1, metadata := .emptyMeta }

/-- A temperature reading of `20.0`. -/
def rd20 : SensorReading :=
  { value := some 20, timestamp := 0, sensor_id := some idS1
    sensor_type := typeTemp, quality := 1, metadata := .emptyMeta }

/-- Three readings with values `1, 2, 3`. -/
def rsC8 : List SensorReading :=
  [ { value := some 1, timestamp := 0, sensor_id := some idS1
      sensor_type := typeTemp, quality := 1, metadata := .emptyMeta }
  , { value := some 2, timestamp := 1, sensor_id := some idS1
      sensor_type := typeTemp, quality := 1, metadata := .emptyMeta }
  , { value := some 3, timestamp := 2, sensor_id := some idS1
      sensor_type := typeTemp, quality := 1, metadata := .emptyMeta } ]

/-- An active test sensor: constant base value `50`, range `[0, 100]`,
drift factor `0.5` (%-of-range per day), zero noise, never
malfunctioning, calibrated at epoch `0` (mirrors the dummy sensor of
`test_calibration.py`). -/
def sensW : BaseSensor :=
  { sensor_id := "d1", sensor_type := "generic", units := "u", sample_rate := 1
    range_min := 0, range_max := 100, accuracy := 1/10, precision := 1/100
    calibration_date := 0, is_active := true, last_reading := none, reading_count := 0
    drift_factor := 1/2, noise_level := 0, malfunction_probability := 0
    base := fun _ => 50 }

/-- `sensW` with drift disabled. -/
def sensW0 : BaseSensor := { sensW with drift_factor := 0 }

/-- `sensW`, deactivated. -/
def sensWOff : BaseSensor := { sensW with is_active := false }

/-! ## Helper lemmas -/

theorem length_pushCap (n : ℕ) (l : List α) (a : α) :
    (pushCap n l a).length = min n (l.length + 1) := by
  simp [pushCap]
  omega

theorem pushCap_eq_lastN (n : ℕ) (l : List α) (a : α) :
    pushCap n l a = lastN n (l ++ [a]) := by
  simp [pushCap, lastN]

theorem lastN_of_le (n : ℕ) (l : List α) (h : l.length ≤ n) : lastN n l = l := by
  simp [lastN, Nat.sub_eq_zero_of_le h]

theorem length_lastN (n : ℕ) (l : List α) : (lastN n l).length = min n l.length := by
  simp [lastN]
  omega

theorem lastN_append_right (n : ℕ) (p q : List α) (h : n ≤ q.length) :
    lastN n (p ++ q) = lastN n q := by
  unfold lastN
  rw [List.length_append,
      show p.length + q.length - n = p.length + (q.length - n) from by omega,
      List.drop_append]

theorem lastN_lastN_append (n : ℕ) (l xs : List α) :
    lastN n (lastN n l ++ xs) = lastN n (l ++ xs) := by
  by_cases h : l.length ≤ n
  · rw [lastN_of_le n l h]
  · have h2 : n ≤ (lastN n l ++ xs).length := by
      rw [List.length_append, length_lastN]
      omega
    calc lastN n (lastN n l ++ xs)
        = lastN n (List.take (l.length - n) l ++ (lastN n l ++ xs)) :=
          (lastN_append_right n _ _ h2).symm
      _ = lastN n (l ++ xs) := by
          rw [← List.append_assoc]
          congr 1
          rw [show lastN n l = l.drop (l.length - n) from rfl, List.take_append_drop]

theorem foldl_pushCap (n : ℕ) (l : List α) :
    ∀ acc : List α, acc.length ≤ n → l.foldl (pushCap n) acc = lastN n (acc ++ l) := by
  induction l with
  | nil =>
    intro acc h
    rw [List.foldl_nil, List.append_nil, lastN_of_le n acc h]
  | cons a t ih =>
    intro acc h
    rw [List.foldl_cons, ih _ (by rw [length_pushCap]; omega), pushCap_eq_lastN,
        lastN_lastN_append]
    simp

theorem foldl_addReading (rs : List SensorReading) :
    ∀ w : SensorWindow,
      (rs.foldl SensorWindow.addReading w).window_size = w.window_size ∧
      (rs.foldl SensorWindow.addReading w).values
        = (rs.map (fun r => r.value)).foldl (pushCap w.window_size) w.values := by
  induction rs with
  | nil => intro w; exact ⟨rfl, rfl⟩
  | cons r t ih =>
    intro w
    rw [List.foldl_cons, List.map_cons, List.foldl_cons]
    exact ih (w.addReading r)

theorem zGeB_zZero (c : ℚ) (h : 0 < c) : zGeB zZero c = false := by
  have h2 : ¬ (c ≤ 0) := not_le.mpr h
  simp only [zGeB, zZero, h2, if_false, decide_eq_false_iff_not, not_le]
  nlinarith [pow_pos h 2]

theorem zToReal_zZero : zToReal zZero = 0 := by
  simp [zToReal, zZero]

theorem zGeB_none (c : ℚ) : zGeB none c = false := rfl

theorem get_z_score_degenerate (w : SensorWindow) (v : FV)
    (h : w.values.length < 2 ∨ fvar w.values = some 0) :
    w.get_z_score v = zZero := by
  unfold SensorWindow.get_z_score
  rcases h with h | h
  · rw [if_pos h]
  · by_cases hl : w.values.length < 2
    · rw [if_pos hl]
    · rw [if_neg hl, h]
      simp

theorem lookupW_updateW (ws : List (String × SensorWindow)) (k : String) (w : SensorWindow) :
    lookupW (updateW ws k w) k = some w := by
  induction ws with
  | nil => simp [updateW, lookupW]
  | cons p rest ih =>
    by_cases h : p.1 = k
    · simp [updateW, h, lookupW]
    · simp [updateW, h, lookupW, ih]

theorem foldl_add_sq_nonneg (m : ℚ) (l : List FV) :
    ∀ acc : ℚ, 0 ≤ acc → 0 ≤ l.foldl (fun acc x => acc + (x.getD 0 - m) ^ 2) acc := by
  induction l with
  | nil => intro acc h; exact h
  | cons x t ih =>
    intro acc h
    exact ih _ (add_nonneg h (sq_nonneg _))

theorem fvar_nonneg (l : List FV) (v : ℚ) (h : fvar l = some v) : 0 ≤ v := by
  unfold fvar at h
  split at h
  · exact absurd h (by simp)
  · split at h
    · exact absurd h (by simp)
    · split at h
      · exact absurd h (by simp)
      · have hv : v = _ := (Option.some_injective ℚ h).symm
        rw [hv]
        apply div_nonneg (foldl_add_sq_nonneg _ _ 0 le_rfl)
        positivity

theorem get_z_score_nonneg (w : SensorWindow) (x : FV) (a b : ℚ)
    (h : w.get_z_score x = some (a, b)) : 0 ≤ a ∧ 0 ≤ b := by
  unfold SensorWindow.get_z_score at h
  split at h
  · simp only [zZero, Option.some_inj, Prod.mk.injEq] at h
    constructor <;> simp [← h.1, ← h.2]
  · split at h
    · exact absurd h (by simp)
    · rename_i var hvar
      split at h
      · simp only [zZero, Option.some_inj, Prod.mk.injEq] at h
        constructor <;> simp [← h.1, ← h.2]
      · rename_i hvz
        split at h
        · rename_i m q hm hq
          simp only [Option.some_inj, Prod.mk.injEq] at h
          have hv0 : 0 ≤ var := fvar_nonneg _ _ hvar
          refine ⟨?_, by rw [← h.2]; exact hv0⟩
          rw [← h.1]
          exact div_nonneg (abs_nonneg _) hv0
        · exact absurd h (by simp)

theorem zGeB_true_iff (a b c : ℚ) (ha : 0 ≤ a) (hb : 0 ≤ b) (hc : 0 < c) :
    zGeB (some (a, b)) c = true ↔ (c : ℝ) ≤ (a : ℝ) * Real.sqrt (b : ℝ) := by
  have h2 : ¬ (c ≤ 0) := not_le.mpr hc
  have ha' : (0 : ℝ) ≤ (a : ℝ) := by exact_mod_cast ha
  have hb' : (0 : ℝ) ≤ (b : ℝ) := by exact_mod_cast hb
  have hc' : (0 : ℝ) < (c : ℝ) := by exact_mod_cast hc
  have hX : (0 : ℝ) ≤ (a : ℝ) * Real.sqrt (b : ℝ) := mul_nonneg ha' (Real.sqrt_nonneg _)
  simp only [zGeB, h2, if_false, decide_eq_true_eq]
  constructor
  · intro h
    have h' : ((c : ℝ)) ^ 2 ≤ ((a : ℝ)) ^ 2 * (b : ℝ) := by exact_mod_cast h
    have hX2 : ((c : ℝ)) ^ 2 ≤ ((a : ℝ) * Real.sqrt (b : ℝ)) ^ 2 := by
      rw [mul_pow, Real.sq_sqrt hb']
      exact h'
    have hmono := Real.sqrt_le_sqrt hX2
    rwa [Real.sqrt_sq hc'.le, Real.sqrt_sq hX] at hmono
  · intro h
    have hsq : ((c : ℝ)) ^ 2 ≤ ((a : ℝ) * Real.sqrt (b : ℝ)) ^ 2 :=
      pow_le_pow_left₀ hc'.le h 2
    rw [mul_pow, Real.sq_sqrt hb'] at hsq
    exact_mod_cast hsq

theorem zGeB_false_iff (a b c : ℚ) (ha : 0 ≤ a) (hb : 0 ≤ b) (hc : 0 < c) :
    zGeB (some (a, b)) c = false ↔ (a : ℝ) * Real.sqrt (b : ℝ) < (c : ℝ) := by
  rw [← not_le, ← zGeB_true_iff a b c ha hb hc]
  cases zGeB (some (a, b)) c <;> simp

theorem sevFromZ_real (a b : ℚ) (ha : 0 ≤ a) (hb : 0 ≤ b) :
    (5 ≤ (a : ℝ) * Real.sqrt (b : ℝ) →
        ZScoreDetector.sevFromZ (some (a, b)) = AlertSeverity.critical)
    ∧ (4 ≤ (a : ℝ) * Real.sqrt (b : ℝ) ∧ (a : ℝ) * Real.sqrt (b : ℝ) < 5 →
        ZScoreDetector.sevFromZ (some (a, b)) = AlertSeverity.high)
    ∧ (3 ≤ (a : ℝ) * Real.sqrt (b : ℝ) ∧ (a : ℝ) * Real.sqrt (b : ℝ) < 4 →
        ZScoreDetector.sevFromZ (some (a, b)) = AlertSeverity.medium)
    ∧ ((a : ℝ) * Real.sqrt (b : ℝ) < 3 →
        ZScoreDetector.sevFromZ (some (a, b)) = AlertSeverity.low) := by
  have e5 := zGeB_true_iff a b 5 ha hb (by norm_num)
  have e4 := zGeB_true_iff a b 4 ha hb (by norm_num)
  have e3 := zGeB_true_iff a b 3 ha hb (by norm_num)
  have f5 := zGeB_false_iff a b 5 ha hb (by norm_num)
  have f4 := zGeB_false_iff a b 4 ha hb (by norm_num)
  have f3 := zGeB_false_iff a b 3 ha hb (by norm_num)
  push_cast at e5 e4 e3 f5 f4 f3
  refine ⟨fun h => ?_, fun h => ?_, fun h => ?_, fun h => ?_⟩
  · simp [ZScoreDetector.sevFromZ, e5.mpr h]
  · simp [ZScoreDetector.sevFromZ, f5.mpr h.2, e4.mpr h.1]
  · simp [ZScoreDetector.sevFromZ, f5.mpr (by linarith [h.2]), f4.mpr h.2, e3.mpr h.1]
  · simp [ZScoreDetector.sevFromZ, f5.mpr (by linarith), f4.mpr (by linarith), f3.mpr h]

/-! ## Claim theorems -/

/-- C6: with the fixed default rule catalogue, a temperature reading of
40.0 triggers exactly the `temp_very_high` (>35, HIGH) and
`temp_extreme_high` (>30, MEDIUM) rules, in catalogue order, producing
exactly two alerts; a temperature reading of 20.0 triggers no rule and
produces no alert. -/
theorem default_rules_temperature_40_20 :
    ((RuleBasedDetector.new.process_reading rd40).map fun a => (a.rule_name, a.severity))
        = [("temp_very_high", AlertSeverity.high), ("temp_extreme_high", AlertSeverity.medium)]
    ∧ (RuleBasedDetector.new.process_reading rd40).length = 2
    ∧ RuleBasedDetector.new.process_reading rd20 = [] := by
  refine ⟨?_, ?_, ?_⟩ <;> rfl

/-- C8: inserting any sequence of readings into a fresh window of
capacity `N` leaves exactly the most recent `N` values, in insertion
order (FIFO eviction); the size never exceeds `N` at any intermediate
point; after `N + k` insertions exactly the last `N` values remain; and
the window is full exactly once it has accumulated `N` values. -/
theorem window_capacity_fifo (N : ℕ) (rs : List SensorReading) :
    ((rs.foldl SensorWindow.addReading (SensorWindow.new N)).values
        = lastN N (rs.map fun r => r.value))
    ∧ (∀ k : ℕ,
        ((rs.take k).foldl SensorWindow.addReading (SensorWindow.new N)).values.length ≤ N)
    ∧ (∀ k : ℕ, rs.length = N + k →
        (rs.foldl SensorWindow.addReading (SensorWindow.new N)).values
          = (rs.map fun r => r.value).drop k)
    ∧ ((rs.foldl SensorWindow.addReading (SensorWindow.new N)).isFull = true ↔ N ≤ rs.length) := by
  have hmain : ∀ l : List SensorReading,
      (l.foldl SensorWindow.addReading (SensorWindow.new N)).values
        = lastN N (l.map fun r => r.value) := by
    intro l
    rw [(foldl_addReading l (SensorWindow.new N)).2]
    have h := foldl_pushCap N (l.map fun r => r.value) [] (by simp [SensorWindow.new])
    simpa [SensorWindow.new] using h
  refine ⟨hmain rs, ?_, ?_, ?_⟩
  · intro k
    rw [hmain (rs.take k), length_lastN]
    omega
  · intro k hk
    rw [hmain rs]
    unfold lastN
    congr 1
    simp [hk]
  · have hws : (rs.foldl SensorWindow.addReading (SensorWindow.new N)).window_size = N :=
      (foldl_addReading rs (SensorWindow.new N)).1
    simp only [SensorWindow.isFull, hws, hmain rs, length_lastN,
      List.length_map, decide_eq_true_eq]
    omega

/-- C8 witness: three values `1, 2, 3` into a fresh window of capacity
2 leave exactly the most recent two, `[2, 3]`, and the window is full. -/
theorem window_capacity_fifo_witness :
    ((rsC8.foldl SensorWindow.addReading (SensorWindow.new 2)).values = [some 2, some 3])
    ∧ (rsC8.foldl SensorWindow.addReading (SensorWindow.new 2)).isFull = true := by
  have h := window_capacity_fifo 2 rsC8
  exact ⟨(h.2.2.1 1 rfl).trans rfl, h.2.2.2.mpr (by decide)⟩

/-- C5: whenever the window a reading is evaluated against holds fewer
than 2 values or has zero sample variance, the computed z-score is
exactly 0.0 (both in representation and as a real number), and —
the z-threshold being positive, as the default 3.0 is — processing the
reading emits no alert; the computation is total (never raises). -/
theorem zscore_degenerate_suppression (d : ZScoreDetector) (r : SensorReading)
    (w : SensorWindow)
    (hw : (lookupW d.sensor_windows (ZScoreDetector.sensorKey r)).getD
            (SensorWindow.new d.window_size) = w)
    (h : w.values.length < 2 ∨ fvar w.values = some 0) :
    w.get_z_score r.value = zZero
    ∧ zToReal (w.get_z_score r.value) = 0
    ∧ (0 < d.z_threshold → (d.process_reading r).1 = []) := by
  have hz := get_z_score_degenerate w r.value h
  refine ⟨hz, by rw [hz, zToReal_zZero], fun hθ => ?_⟩
  unfold ZScoreDetector.process_reading
  simp only [hw]
  cases hf : w.isFull
  · simp [hf]
  · simp [hf, hz, zGeB_zZero d.z_threshold hθ]

/-- C5 witness: a fresh detector (empty window, fewer than 2 values)
assigns z-score 0.0 to a reading of 100 and emits no alert. -/
theorem zscore_degenerate_suppression_witness :
    ((SensorWindow.new 10).get_z_score rC5.value = zZero)
    ∧ ((ZScoreDetector.new 10 3).process_reading rC5).1 = [] := by
  have h := zscore_degenerate_suppression (ZScoreDetector.new 10 3) rC5
    (SensorWindow.new 10) rfl (Or.inl (by decide))
  exact ⟨h.1, h.2.2 (by decide)⟩

/-- C2: processing a reading updates the sensor key's window by
appending the reading only *after* the z-score check: the post-state
window is exactly the pre-state window plus the new value, any emitted
alert carries the z-score computed against the pre-state window (which
holds only strictly prior readings), and no z-score alert is possible
unless the pre-state window already holds a full set of prior values. -/
theorem zscore_window_append_after_check (d : ZScoreDetector) (r : SensorReading)
    (w : SensorWindow)
    (hw : (lookupW d.sensor_windows (ZScoreDetector.sensorKey r)).getD
            (SensorWindow.new d.window_size) = w) :
    lookupW (d.process_reading r).2.sensor_windows (ZScoreDetector.sensorKey r)
        = some (w.addReading r)
    ∧ (w.isFull = false → (d.process_reading r).1 = [])
    ∧ (∀ a ∈ (d.process_reading r).1,
        w.isFull = true
        ∧ a.metadata = AlertMeta.zscoreTag (w.get_z_score r.value) d.window_size
            w.get_statistics) := by
  unfold ZScoreDetector.process_reading
  simp only [hw]
  refine ⟨lookupW_updateW _ _ _, fun hf => by simp [hf], fun a ha => ?_⟩
  cases hf : w.isFull
  · rw [hf] at ha
    simp at ha
  · rw [hf] at ha
    simp only [if_true] at ha
    split at ha
    · have haeq := List.mem_singleton.mp ha
      subst haeq
      exact ⟨rfl, rfl⟩
    · simp at ha

/-- C2 witness: on the concrete full-window detector `dC4`, the
post-state window is the pre-state window `wC4` with the new value
appended, and the emitted alert carries the pre-state z-score. -/
theorem zscore_window_append_after_check_witness :
    lookupW (dC4.process_reading rC4).2.sensor_windows (ZScoreDetector.sensorKey rC4)
        = some (wC4.addReading rC4)
    ∧ ∀ a ∈ (dC4.process_reading rC4).1,
        a.metadata = AlertMeta.zscoreTag (wC4.get_z_score rC4.value) dC4.window_size
          wC4.get_statistics := by
  have h := zscore_window_append_after_check dC4 rC4 wC4 (by decide)
  exact ⟨h.1, fun a ha => (h.2.2 a ha).2⟩

/-- C4: for a reading whose window is full, the statistical detector
emits exactly one alert precisely when the z-score reaches the
threshold (equivalently, in real terms, when `z_threshold ≤ z` for a
non-NaN z-score and positive threshold; a NaN z-score never alerts);
the alert's severity follows the magnitude ladder
`z≥5 → CRITICAL, z≥4 → HIGH, z≥3 → MEDIUM, else LOW`, and its metadata
carries the computed z-score and the window statistics. -/
theorem zscore_alert_emission (d : ZScoreDetector) (r : SensorReading) (w : SensorWindow)
    (hlk : lookupW d.sensor_windows (ZScoreDetector.sensorKey r) = some w)
    (hfull : w.isFull = true) :
    ((d.process_reading r).1.length = 1
        ↔ zGeB (w.get_z_score r.value) d.z_threshold = true)
    ∧ ((d.process_reading r).1 = []
        ↔ zGeB (w.get_z_score r.value) d.z_threshold = false)
    ∧ (∀ a ∈ (d.process_reading r).1,
        a.severity = ZScoreDetector.sevFromZ (w.get_z_score r.value)
        ∧ a.metadata = AlertMeta.zscoreTag (w.get_z_score r.value) d.window_size
            w.get_statistics
        ∧ a.value = r.value ∧ a.threshold = d.z_threshold ∧ a.timestamp = r.timestamp)
    ∧ (w.get_z_score r.value = none → (d.process_reading r).1 = [])
    ∧ (∀ p : ℚ × ℚ, w.get_z_score r.value = some p → 0 < d.z_threshold →
        ((d.process_reading r).1.length = 1
          ↔ (d.z_threshold : ℝ) ≤ zToReal (w.get_z_score r.value)))
    ∧ (∀ p : ℚ × ℚ, w.get_z_score r.value = some p →
        ((5 ≤ zToReal (w.get_z_score r.value) →
            ZScoreDetector.sevFromZ (w.get_z_score r.value) = AlertSeverity.critical)
         ∧ (4 ≤ zToReal (w.get_z_score r.value) ∧ zToReal (w.get_z_score r.value) < 5 →
            ZScoreDetector.sevFromZ (w.get_z_score r.value) = AlertSeverity.high)
         ∧ (3 ≤ zToReal (w.get_z_score r.value) ∧ zToReal (w.get_z_score r.value) < 4 →
            ZScoreDetector.sevFromZ (w.get_z_score r.value) = AlertSeverity.medium)
         ∧ (zToReal (w.get_z_score r.value) < 3 →
            ZScoreDetector.sevFromZ (w.get_z_score r.value) = AlertSeverity.low))) := by
  have halerts : (d.process_reading r).1
      = if zGeB (w.get_z_score r.value) d.z_threshold
        then [ZScoreDetector.mkZAlert d r (w.get_z_score r.value) w.get_statistics]
        else [] := by
    unfold ZScoreDetector.process_reading
    simp [hlk, hfull]
  refine ⟨?_, ?_, ?_, ?_, ?_, ?_⟩
  · rw [halerts]
    cases hg : zGeB (w.get_z_score r.value) d.z_threshold <;> simp [hg]
  · rw [halerts]
    cases hg : zGeB (w.get_z_score r.value) d.z_threshold <;> simp [hg]
  · intro a ha
    rw [halerts] at ha
    split at ha
    · have haeq := List.mem_singleton.mp ha
      subst haeq
      exact ⟨rfl, rfl, rfl, rfl, rfl⟩
    · simp at ha
  · intro hnone
    rw [halerts, hnone]
    simp [zGeB]
  · intro p hp hθ
    obtain ⟨a, b⟩ := p
    have hnn := get_z_score_nonneg w r.value a b hp
    have hiff := zGeB_true_iff a b d.z_threshold hnn.1 hnn.2 hθ
    rw [halerts, hp,
        show zToReal (some (a, b)) = (a : ℝ) * Real.sqrt (b : ℝ) from rfl, ← hiff]
    cases hg : zGeB (some (a, b)) d.z_threshold <;> simp [hg]
  · intro p hp
    obtain ⟨a, b⟩ := p
    have hnn := get_z_score_nonneg w r.value a b hp
    have hs := sevFromZ_real a b hnn.1 hnn.2
    rw [hp]
    simpa [show zToReal (some (a, b)) = (a : ℝ) * Real.sqrt (b : ℝ) from rfl] using hs

/-- C4 witness: on the concrete detector `dC4` (window `[0,1,2]`, mean
1, sample variance 1) the reading of value 10 has z-score 9 and
produces exactly one alert, with CRITICAAL severity recorded. -/
theorem zscore_alert_emission_witness :
    (dC4.process_reading rC4).1.length = 1
    ∧ ∀ a ∈ (dC4.process_reading rC4).1,
        a.severity = ZScoreDetector.sevFromZ (wC4.get_z_score rC4.value) := by
  have h := zscore_alert_emission dC4 rC4 wC4 rfl rfl
  have hz : wC4.get_z_score rC4.value = some (9, 1) := by
    norm_num [SensorWindow.get_z_score, fvar, fmean, FV.isNan, wC4, rC4, zZero]
  have hg : zGeB (wC4.get_z_score rC4.value) dC4.z_threshold = true := by
    rw [hz]
    norm_num [zGeB, dC4]
  exact ⟨h.1.mpr hg, fun a ha => (h.2.2.1 a ha).1⟩

theorem mem_pushCap_self (n : ℕ) (l : List α) (a : α) (h : n ≠ 0) :
    a ∈ pushCap n l a := by
  unfold pushCap
  rw [List.drop_append_of_le_length (by omega)]
  exact List.mem_append_right _ (List.mem_singleton.mpr rfl)

theorem fmean_of_nan_mem (l : List FV) (h : FV.nanF ∈ l) : fmean l = FV.nanF := by
  unfold fmean
  rw [if_pos (List.any_eq_true.mpr ⟨FV.nanF, h, rfl⟩)]
  rfl

theorem get_z_score_nanF (w : SensorWindow) :
    w.get_z_score FV.nanF = zZero ∨ w.get_z_score FV.nanF = none := by
  unfold SensorWindow.get_z_score
  split
  · exact Or.inl rfl
  · cases hv : fvar w.values with
    | none => exact Or.inr rfl
    | some var =>
      by_cases h0 : var = 0
      · simp [h0]
      · cases hm : fmean w.values with
        | none => simp [h0, hm, FV.nanF]
        | some m => simp [h0, hm, FV.nanF]

/-- C3 counterexample: the claim "detectors filter malfunction readings
out of their statistics; the statistical detector's window statistics
are computed over non-malfunction values only" is false on the code.
Processing the malfunction reading `rC3` against the full window
`[1, 2]` crashes nothing and alerts nothing, but the NaN value *is*
appended to the window: the resulting window is `[2, NaN]`, its
`get_statistics` mean and stdev are NaN (computed over a set that
includes the malfunction value), while the mean over the
non-malfunction values alone would be `2`. -/
theorem malfunction_filtering_counterexample :
    (dC3.process_reading rC3).1 = []
    ∧ lookupW (dC3.process_reading rC3).2.sensor_windows keyTempS1 = some wC3x
    ∧ FV.nanF ∈ wC3x.values
    ∧ wC3x.get_statistics.mean = FV.nanF
    ∧ wC3x.get_statistics.stdev = none
    ∧ fmean (wC3x.values.filter fun x => ! FV.isNan x) = some 2
    ∧ wC3x.get_statistics.mean ≠ fmean (wC3x.values.filter fun x => ! FV.isNan x) := by
  have hlk : lookupW dC3.sensor_windows (ZScoreDetector.sensorKey rC3) = some wC3 := rfl
  have hfull : wC3.isFull = true := rfl
  have hz : wC3.get_z_score rC3.value = none := by
    norm_num [SensorWindow.get_z_score, fvar, fmean, FV.isNan, FV.nanF, wC3, rC3]
  refine ⟨?_, ?_, ?_, ?_, ?_, ?_, ?_⟩
  · unfold ZScoreDetector.process_reading
    simp [hlk, hfull, hz, zGeB]
  · have hupd := lookupW_updateW dC3.sensor_windows (ZScoreDetector.sensorKey rC3)
      (wC3.addReading rC3)
    unfold ZScoreDetector.process_reading
    simp only [hlk, Option.getD_some]
    exact hupd.trans (by rfl)
  · exact List.mem_cons.mpr (Or.inr (List.mem_singleton.mpr rfl))
  · rfl
  · rfl
  · norm_num [fmean, FV.isNan, wC3x, FV.nanF]
  · intro h
    rw [show wC3x.get_statistics.mean = FV.nanF from rfl] at h
    rw [show (wC3x.values.filter fun x => ! FV.isNan x) = [some 2] from rfl] at h
    norm_num [fmean, FV.isNan, FV.nanF] at h
    exact Option.noConfusion h

/-- C3 (amended): a malfunction reading (NaN value) never crashes the
statistical detector and — the z-threshold being positive, as the
default is — never triggers an alert (every comparison against NaN is
false); but it is *not* filtered out of the statistics: the NaN is
appended to the sensor's window (whenever the window capacity is
non-zero), and while it remains there the window's mean statistic is
NaN, i.e. the statistics range over the malfunction value too. -/
theorem malfunction_treated_as_data_not_filtered (d : ZScoreDetector) (r : SensorReading)
    (w : SensorWindow)
    (hw : (lookupW d.sensor_windows (ZScoreDetector.sensorKey r)).getD
            (SensorWindow.new d.window_size) = w)
    (hv : r.value = FV.nanF) (hθ : 0 < d.z_threshold) :
    (d.process_reading r).1 = []
    ∧ lookupW (d.process_reading r).2.sensor_windows (ZScoreDetector.sensorKey r)
        = some (w.addReading r)
    ∧ (w.window_size ≠ 0 → FV.nanF ∈ (w.addReading r).values)
    ∧ (FV.nanF ∈ (w.addReading r).values →
        fmean (w.addReading r).values = FV.nanF
        ∧ (w.addReading r).get_statistics.mean = FV.nanF) := by
  refine ⟨?_, ?_, ?_, ?_⟩
  · unfold ZScoreDetector.process_reading
    simp only [hw]
    cases hf : w.isFull
    · simp [hf]
    · rcases get_z_score_nanF w with hz | hz
      · simp [hf, hv, hz, zGeB_zZero d.z_threshold hθ]
      · simp [hf, hv, hz, zGeB_none]
  · unfold ZScoreDetector.process_reading
    simp only [hw]
    exact lookupW_updateW _ _ _
  · intro hn
    unfold SensorWindow.addReading
    simp only
    rw [← hv]
    exact mem_pushCap_self w.window_size w.values r.value hn
  · intro hmem
    have hmean := fmean_of_nan_mem _ hmem
    refine ⟨hmean, ?_⟩
    unfold SensorWindow.get_statistics
    rw [if_neg (by
      intro h0
      rw [List.length_eq_zero] at h0
      rw [h0] at hmem
      exact List.not_mem_nil _ hmem)]
    exact hmean

/-- C3 witness for the amended theorem: on the concrete detector `dC3`,
the malfunction reading yields no alert and the post-window's mean is
NaN. -/
theorem malfunction_treated_as_data_not_filtered_witness :
    (dC3.process_reading rC3).1 = []
    ∧ fmean (wC3.addReading rC3).values = FV.nanF := by
  have h := malfunction_treated_as_data_not_filtered dC3 rC3 wC3 rfl rfl (by decide)
  exact ⟨h.1, (h.2.2.2 (h.2.2.1 (by decide))).1⟩

/-- C7: `read` raises exactly when the sensor is not active (reading an
inactive sensor is an error, never a silent no-op), the raised error is
the activation error, and on that error the sensor state — in
particular `last_reading` and `reading_count` — is unchanged. -/
theorem read_inactive_error_state_unchanged (s : BaseSensor) (tArg : Option ℚ)
    (now roll g : ℚ) :
    (BaseSensor.isErr (s.read tArg now roll g).1 = true ↔ s.is_active = false)
    ∧ (s.is_active = false →
        (s.read tArg now roll g).2 = s
        ∧ (s.read tArg now roll g).1 = Except.error s.activationError) := by
  unfold BaseSensor.read
  cases hact : s.is_active
  · simp [BaseSensor.isErr]
  · simp [BaseSensor.isErr]

/-- C7 witness: the deactivated sensor `sensWOff` errors on `read` and
its state (hence `last_reading` and `reading_count`) is unchanged. -/
theorem read_inactive_error_state_unchanged_witness :
    BaseSensor.isErr (sensWOff.read none 0 1 0).1 = true
    ∧ (sensWOff.read none 0 1 0).2 = sensWOff := by
  have h := read_inactive_error_state_unchanged sensWOff none 0 1 0
  exact ⟨h.1.mpr rfl, (h.2 rfl).1⟩

/-- C9: with zero noise level and zero drift factor, and no malfunction,
`read(t)` returns exactly the base value `generate_base_value(t)`,
modulo clamping to `[range_min, range_max]` (stated for the model with
an arbitrary base-value function, hence for every sensor variant). -/
theorem zero_noise_zero_drift_read_is_base (s : BaseSensor) (t now roll g : ℚ)
    (hact : s.is_active = true) (hnl : s.noise_level = 0) (hdf : s.drift_factor = 0)
    (hmp : s.malfunction_probability ≤ roll) :
    BaseSensor.resValue (s.read (some t) now roll g).1
        = some (s.clampToRange (s.base t))
    ∧ BaseSensor.isErr (s.read (some t) now roll g).1 = false := by
  have hmal : s.checkMalfunction roll = false := by
    simp [BaseSensor.checkMalfunction, not_lt.mpr hmp]
  have hdrift : s.applyDrift (s.base t) now = s.base t := by
    unfold BaseSensor.applyDrift
    rw [if_pos hdf]
  have hnoise : s.applyNoise (s.base t) g = s.base t := by
    unfold BaseSensor.applyNoise
    rw [if_pos (le_of_eq hnl)]
  unfold BaseSensor.read
  simp [hact, hmal, hdrift, hnoise, BaseSensor.resValue, BaseSensor.isErr]

/-- C9 witness: the zero-drift, zero-noise sensor `sensW0` read at
timestamp 5 (wall clock 999) returns its clamped base value, `50`. -/
theorem zero_noise_zero_drift_read_is_base_witness :
    BaseSensor.resValue (sensW0.read (some 5) 999 1 0).1
        = some (sensW0.clampToRange (sensW0.base 5))
    ∧ sensW0.clampToRange (sensW0.base 5) = 50 := by
  have h := zero_noise_zero_drift_read_is_base sensW0 5 999 1 0 rfl rfl rfl (by decide)
  exact ⟨h.1, by norm_num [BaseSensor.clampToRange, sensW0, sensW]⟩

/-- C1: after `calibrate(r, a)` (any prior drift factor and calibration
date), an immediate read — at the wall-clock instant of the calibration,
with zero noise, no malfunction, and the reference `r` being the
sensor's true (base) value, within range — returns exactly `r`: the
drift offset restarts from zero, so the reading matches the reference. -/
theorem calibrate_then_read_matches_reference (s : BaseSensor) (r a now roll g t : ℚ)
    (hact : s.is_active = true) (hnl : s.noise_level ≤ 0)
    (hmp : s.malfunction_probability ≤ roll)
    (hbase : s.base t = r) (hlo : s.range_min ≤ r) (hhi : r ≤ s.range_max) :
    BaseSensor.resValue ((s.calibrate r a now).read (some t) now roll g).1 = some r
    ∧ BaseSensor.isErr ((s.calibrate r a now).read (some t) now roll g).1 = false := by
  have hmal : (s.calibrate r a now).checkMalfunction roll = false := by
    simp [BaseSensor.checkMalfunction, BaseSensor.calibrate, not_lt.mpr hmp]
  have hbase2 : (s.calibrate r a now).base t = r := hbase
  have hdrift : (s.calibrate r a now).applyDrift r now = r := by
    unfold BaseSensor.applyDrift BaseSensor.driftAmount
    split
    · rfl
    · simp [BaseSensor.calibrate]
  have hnoise : (s.calibrate r a now).applyNoise r g = r := by
    unfold BaseSensor.applyNoise
    rw [if_pos (show (s.calibrate r a now).noise_level ≤ 0 from hnl)]
  have hclamp : (s.calibrate r a now).clampToRange r = r := by
    unfold BaseSensor.clampToRange
    rw [min_eq_right (show r ≤ (s.calibrate r a now).range_max from hhi),
        max_eq_right (show (s.calibrate r a now).range_min ≤ r from hlo)]
  unfold BaseSensor.read
  simp [show (s.calibrate r a now).is_active = true from hact, hmal, hbase2, hdrift,
    hnoise, hclamp, BaseSensor.resValue, BaseSensor.isErr]

/-- C1 witness: `sensW` (drift factor 0.5, base value 50) calibrated
with reference 50 and actual 55 at wall clock 864000, then immediately
read, returns exactly 50. -/
theorem calibrate_then_read_matches_reference_witness :
    BaseSensor.resValue ((sensW.calibrate 50 55 864000).read (some 864000) 864000 1 0).1
      = some 50 := by
  have h := calibrate_then_read_matches_reference sensW 50 55 864000 1 0 864000
    rfl (by decide) (by decide) rfl (by decide) (by decide)
  exact h.1

/-- C10: the drift offset applied during `read(t)` is
`drift_factor * ((now - calibration_date) / 86400) * (range_max - range_min) / 100`
where `now` is the *wall clock at the moment of the call*
(`datetime.now()`), not the timestamp argument `t`: two reads in the
same state at the same wall-clock instant record the same drift offset
regardless of their timestamp arguments, so drift accrues with real
elapsed time, not simulated time. -/
theorem drift_uses_wall_clock_not_timestamp (s : BaseSensor) (t1 t2 now roll g : ℚ)
    (hact : s.is_active = true) (hmp : s.malfunction_probability ≤ roll)
    (hdf : s.drift_factor ≠ 0) :
    BaseSensor.mdDrift (BaseSensor.resMeta (s.read (some t1) now roll g).1)
        = some (s.drift_factor * ((now - s.calibration_date) / (24 * 3600))
            * (s.range_max - s.range_min) / 100)
    ∧ BaseSensor.mdDrift (BaseSensor.resMeta (s.read (some t2) now roll g).1)
        = BaseSensor.mdDrift (BaseSensor.resMeta (s.read (some t1) now roll g).1) := by
  have hmal : s.checkMalfunction roll = false := by
    simp [BaseSensor.checkMalfunction, not_lt.mpr hmp]
  have hread : ∀ t : ℚ,
      BaseSensor.mdDrift (BaseSensor.resMeta (s.read (some t) now roll g).1)
        = some (s.driftAmount now) := by
    intro t
    unfold BaseSensor.read
    simp only [hact, Bool.true_eq_false, if_false, hmal, Bool.false_eq_true,
      Option.getD_some]
    unfold BaseSensor.applyDrift
    rw [if_neg hdf]
    simp [BaseSensor.mdDrift, BaseSensor.resMeta]
  exact ⟨(hread t1).trans (by unfold BaseSensor.driftAmount; rfl),
    (hread t2).trans (hread t1).symm⟩

/-- C10 witness: `sensW` (drift factor 0.5, calibrated at epoch 0) read
at wall clock 864000 (10 days) with timestamp arguments 0 and 123
records the same drift offset for both. -/
theorem drift_uses_wall_clock_not_timestamp_witness :
    BaseSensor.mdDrift (BaseSensor.resMeta (sensW.read (some 0) 864000 1 0).1)
        = some (sensW.drift_factor * ((864000 - sensW.calibration_date) / (24 * 3600))
            * (sensW.range_max - sensW.range_min) / 100)
    ∧ BaseSensor.mdDrift (BaseSensor.resMeta (sensW.read (some 123) 864000 1 0).1)
        = BaseSensor.mdDrift (BaseSensor.resMeta (sensW.read (some 0) 864000 1 0).1) := by
  have h := drift_uses_wall_clock_not_timestamp sensW 0 123 864000 1 0
    rfl (by decide) (by norm_num [sensW])
  exact h
